import Mathlib

/-!
Verification development for the TOML configuration translator of the log4rs
repository (`src/toml/mod.rs`).  The translator consumes a raw configuration
structure, resolves each appender fragment through a creator registry, applies
defaults for the root and the loggers, and hands the result to a config
validator.  Pure Rust functions are embedded as Lean functions; the boxed
`error::Error` payloads are embedded as their message strings; the external
collaborators (the raw extractor, the pattern compiler, the file build step and
the config validator) are either parameters of the embedded functions or are
modelled from the spec where noted.
-/

set_option autoImplicit false

namespace Log4rs

/-- The `LogLevelFilter` type of the `log` crate. -/
inductive LogLevelFilter where
  | off
  | error
  | warn
  | info
  | debug
  | trace
  deriving DecidableEq, Repr

/-- The generic TOML value tree (`toml_parser::Value`): a closed tagged union
over strings, integers, floats, booleans, datetimes, arrays and tables.
A table is embedded as an association list from string keys to values. -/
inductive Value where
  | str (s : String)
  | int (n : Int)
  | float (f : Float)
  | boolean (b : Bool)
  | datetime (d : String)
  | array (xs : List Value)
  | table (t : List (String × Value))

/-- `toml_parser::Table`: a mapping from string keys to values, embedded as an
association list; `config.get(k)` is `List.lookup k`. -/
abbrev Table := List (String × Value)

/-- The compiled pattern layout (`pattern::PatternLayout`).  Its contents are
opaque to the translator; the embedding records the source pattern string. -/
structure PatternLayout where
  pattern : String
  deriving DecidableEq, Repr

/-- A pattern compiler: the external collaborator `PatternLayout::new`, whose
compilation errors the creators propagate unchanged.  The embedded creators
take the compiler as a parameter. -/
abbrev PatternNew := String → Except String PatternLayout

/-- The constructed file appender (`appender::FileAppender`), as far as the
translator observes it: the path it was built for and the optional layout. -/
structure FileAppender where
  path : String
  pattern : Option PatternLayout
  deriving DecidableEq, Repr

/-- The builder state of `FileAppender::builder(path)` before `build`. -/
structure FileAppenderBuilder where
  path : String
  pattern : Option PatternLayout
  deriving DecidableEq, Repr

/-- `FileAppender::builder(path)`. -/
def FileAppender.builder (path : String) : FileAppenderBuilder :=
  { path := path, pattern := none }

/-- `FileAppenderBuilder::pattern`: record the layout on the builder. -/
def FileAppenderBuilder.pattern_ (b : FileAppenderBuilder) (p : PatternLayout) :
    FileAppenderBuilder :=
  { b with pattern := some p }

/-- A file build step: the external, fallible `FileAppenderBuilder::build`
(it opens the target path for writing).  The embedded file creator takes it as
a parameter and propagates its failure unchanged. -/
abbrev FileBuild := FileAppenderBuilder → Except String FileAppender

/-- The constructed console appender (`appender::ConsoleAppender`). -/
structure ConsoleAppender where
  pattern : Option PatternLayout
  deriving DecidableEq, Repr

/-- The builder state of `ConsoleAppender::builder()`. -/
structure ConsoleAppenderBuilder where
  pattern : Option PatternLayout
  deriving DecidableEq, Repr

/-- `ConsoleAppender::builder()`. -/
def ConsoleAppender.builder : ConsoleAppenderBuilder :=
  { pattern := none }

/-- `ConsoleAppenderBuilder::pattern`. -/
def ConsoleAppenderBuilder.pattern_ (b : ConsoleAppenderBuilder) (p : PatternLayout) :
    ConsoleAppenderBuilder :=
  { b with pattern := some p }

/-- `ConsoleAppenderBuilder::build()`: infallible construction. -/
def ConsoleAppenderBuilder.build (b : ConsoleAppenderBuilder) : ConsoleAppender :=
  { pattern := b.pattern }

/-- A constructed appender behind `Box<Append>`: the opaque polymorphic output
object.  The two built-in shapes are listed; an extra constructor stands for
appenders built by application-registered factories. -/
inductive Append where
  | file (a : FileAppender)
  | console (a : ConsoleAppender)
  | other (tag : String)
  deriving DecidableEq, Repr

/-- An appender factory behind `Box<CreateAppender>`: the single
validate-and-construct operation of the `CreateAppender` trait.  Errors are
embedded as their message strings. -/
abbrev CreateAppender := Table → Except String Append

/-- The creator registry (`Creator`): a mapping from kind identifiers to
factories, embedded as an association list with at most one entry per key. -/
structure Creator where
  appenders : List (String × CreateAppender)

/-- `Creator::new()`: the empty registry. -/
def Creator.new : Creator :=
  { appenders := [] }

/-- Insertion into the registry map with `HashMap::insert` semantics: if the
key is already present its entry is replaced in place, otherwise the new entry
is appended. -/
def insertAssoc (m : List (String × CreateAppender)) (k : String) (v : CreateAppender) :
    List (String × CreateAppender) :=
  match m with
  | [] => [(k, v)]
  | (k0, v0) :: rest =>
      if k0 = k then (k, v) :: rest else (k0, v0) :: insertAssoc rest k v

/-- `Creator::add_appender(kind, creator)`: insert or replace the factory for
`kind`. -/
def Creator.add_appender (c : Creator) (kind : String) (f : CreateAppender) : Creator :=
  { appenders := insertAssoc c.appenders kind f }

/-- `Creator::create_appender(kind, config)`: look up `kind`; if present,
delegate to the factory; if absent, fail with the kind-not-registered message
built by `format!`. -/
def Creator.create_appender (c : Creator) (kind : String) (config : Table) :
    Except String Append :=
  match c.appenders.lookup kind with
  | some f => f config
  | none => .error ("No creator registered for appender kind \"" ++ kind ++ "\"")

/-- The error payload of the external config validator (`config::Error`),
embedded as a message string. -/
abbrev ConfigError := String

/-- The three-way error type of `toml::parse` (`enum Error`). -/
inductive Error where
  | parse (msgs : List String)
  | creation (err : String)
  | config (err : ConfigError)
  deriving DecidableEq, Repr

/-- An appender fragment of the raw structure (`raw::Appender`): the `kind`
tag plus the remaining keys as the kind-specific config table. -/
structure RawAppender where
  kind : String
  config : Table

/-- Modelled from the spec: the raw root section produced by the Raw Config
Extractor (`src/toml/raw.rs`, not under `src/`): a level plus an optional list
of appender names. -/
structure RawRoot where
  level : LogLevelFilter
  appenders : Option (List String)

/-- Modelled from the spec: a raw logger entry produced by the Raw Config
Extractor (`src/toml/raw.rs`, not under `src/`): name, level, optional
appender-name list and optional additive flag. -/
structure RawLogger where
  name : String
  level : LogLevelFilter
  appenders : Option (List String)
  additive : Option Bool

/-- Modelled from the spec: the intermediate raw structure produced by the Raw
Config Extractor (`src/toml/raw.rs`, not under `src/`): an optional refresh
interval, an optional root section, the named appender fragments in document
order and the logger list. -/
structure RawConfig where
  refresh_rate : Option Nat
  root : Option RawRoot
  appenders : List (String × RawAppender)
  loggers : List RawLogger

/-- A raw extractor: the external `raw::parse`, which either yields a raw
structure or reports its problems as a list of message strings.  The embedded
`parse` takes it as a parameter. -/
abbrev RawParse := String → Except (List String) RawConfig

/-- A named constructed appender (`config::Appender`), built by
`config::Appender::new(name, appender)`. -/
structure ConfigAppender where
  name : String
  appender : Append
  deriving DecidableEq, Repr

/-- `config::Appender::new(name, appender)`. -/
def ConfigAppender.new (name : String) (appender : Append) : ConfigAppender :=
  { name := name, appender := appender }

/-- The root logging policy (`config::Root`): a level plus appender-name
references. -/
structure Root where
  level : LogLevelFilter
  appenders : List String
  deriving DecidableEq, Repr

/-- Modelled from the spec: `config::Root::new(level)` (config module not
under `src/`) starts from the given level with no appender references. -/
def Root.new (level : LogLevelFilter) : Root :=
  { level := level, appenders := [] }

/-- A logger override (`config::Logger`): name, level, appender-name
references and the additive flag. -/
structure Logger where
  name : String
  level : LogLevelFilter
  appenders : List String
  additive : Bool
  deriving DecidableEq, Repr

/-- Modelled from the spec: `config::Logger::new(name, level)` (config module
not under `src/`) starts from the given name and level; `parse` overwrites
both the appender list and the additive flag right after, so their initial
values are unobservable. -/
def Logger.new (name : String) (level : LogLevelFilter) : Logger :=
  { name := name, level := level, appenders := [], additive := true }

/-- The validated configuration (`config::Config`). -/
structure Config where
  appenders : List ConfigAppender
  root : Root
  loggers : List Logger
  deriving DecidableEq, Repr

/-- True when the list of names contains a duplicate. -/
def hasDup (names : List String) : Bool :=
  match names with
  | [] => false
  | n :: rest => rest.contains n || hasDup rest

/-- Modelled from the spec: `config::Config::new(appenders, root, loggers)`
(config module not under `src/`), the external Config Validator.  It enforces
the cross-referential invariants — no duplicate appender names, no root or
logger reference to an unknown appender — and otherwise returns the triple
unchanged. -/
def Config.new (appenders : List ConfigAppender) (root : Root) (loggers : List Logger) :
    Except ConfigError Config :=
  let names := appenders.map ConfigAppender.name
  if hasDup names then
    .error "duplicate appender name"
  else if !(root.appenders.all names.contains) then
    .error "root references an unknown appender"
  else if !(loggers.all fun l => l.appenders.all names.contains) then
    .error "logger references an unknown appender"
  else
    .ok { appenders := appenders, root := root, loggers := loggers }

/-- The final product of `parse` (`struct TomlConfig`). -/
structure TomlConfig where
  refresh_rate : Option Nat
  config : Config
  deriving DecidableEq, Repr

/-- The appender-resolution loop of `parse`: for each `(name, appender)` pair
in order, call `creator.create_appender`; on the first failure return that
error; on success push `config::Appender::new(name, appender)`. -/
def resolveAppenders (creator : Creator) :
    List (String × RawAppender) → Except String (List ConfigAppender)
  | [] => .ok []
  | (name, a) :: rest =>
      match creator.create_appender a.kind a.config with
      | .error err => .error err
      | .ok appender =>
          match resolveAppenders creator rest with
          | .error err => .error err
          | .ok apps => .ok (ConfigAppender.new name appender :: apps)

/-- The root-assembly step of `parse`: with a raw root present, start from
`Root::new(level)` and extend with its appender names when given; with no raw
root, `Root::new(LogLevelFilter::Debug)`. -/
def mkRoot : Option RawRoot → Root
  | some rawRoot =>
      let root := Root.new rawRoot.level
      match rawRoot.appenders with
      | some apps => { root with appenders := root.appenders ++ apps }
      | none => root
  | none => Root.new .debug

/-- The logger-assembly step of `parse`: build `Logger::new(name, level)`,
then set `appenders` to the raw list or `vec![]` and `additive` to the raw
flag or `true`. -/
def mkLogger (l : RawLogger) : Logger :=
  let logger := Logger.new l.name l.level
  { logger with
    appenders := l.appenders.getD []
    additive := l.additive.getD true }

/-- `toml::parse(config, creator)`: extraction, appender resolution, assembly
and cross-validation, each stage short-circuiting on its first failure.  The
external raw extractor is passed as the `rawParse` parameter. -/
def parse (rawParse : RawParse) (config : String) (creator : Creator) :
    Except Error TomlConfig :=
  match rawParse config with
  | .error errs => .error (.parse errs)
  | .ok raw =>
      match resolveAppenders creator raw.appenders with
      | .error err => .error (.creation err)
      | .ok appenders =>
          let root := mkRoot raw.root
          let loggers := raw.loggers.map mkLogger
          match Config.new appenders root loggers with
          | .ok cfg => .ok { refresh_rate := raw.refresh_rate, config := cfg }
          | .error err => .error (.config err)

/-- `FileAppenderCreator::create_appender(config)`: require a string `path`,
optionally compile a string `pattern` through the external compiler `pnew`,
then run the external build step `fbuild` and propagate its result. -/
def FileAppenderCreator.create_appender (pnew : PatternNew) (fbuild : FileBuild)
    (config : Table) : Except String Append :=
  match config.lookup "path" with
  | some (Value.str path) =>
      let appender := FileAppender.builder path
      let step : Except String FileAppenderBuilder :=
        match config.lookup "pattern" with
        | some (Value.str pat) =>
            match pnew pat with
            | .ok layout => .ok (appender.pattern_ layout)
            | .error err => .error err
        | some _ => .error "`pattern` must be a string"
        | none => .ok appender
      match step with
      | .error err => .error err
      | .ok appender =>
          match fbuild appender with
          | .ok built => .ok (.file built)
          | .error err => .error err
  | some _ => .error "`path` must be a string"
  | none => .error "`path` is required"

/-- `ConsoleAppenderCreator::create_appender(config)`: optionally compile a
string `pattern` through the external compiler `pnew`, then build (console
construction is infallible). -/
def ConsoleAppenderCreator.create_appender (pnew : PatternNew) (config : Table) :
    Except String Append :=
  let appender := ConsoleAppender.builder
  let step : Except String ConsoleAppenderBuilder :=
    match config.lookup "pattern" with
    | some (Value.str pat) =>
        match pnew pat with
        | .ok layout => .ok (appender.pattern_ layout)
        | .error err => .error err
    | some _ => .error "`pattern` must be a string"
    | none => .ok appender
  match step with
  | .error err => .error err
  | .ok appender => .ok (.console appender.build)

/-- `Creator::default()`: the registry pre-populated with the two built-in
creators, given concrete pattern-compilation and file-build collaborators. -/
def Creator.default (pnew : PatternNew) (fbuild : FileBuild) : Creator :=
  (Creator.new.add_appender "file" (FileAppenderCreator.create_appender pnew fbuild)).add_appender
    "console" (ConsoleAppenderCreator.create_appender pnew)

/-- A concrete pattern compiler for witnesses: compilation always succeeds. -/
def pnewOk : PatternNew := fun s => .ok { pattern := s }

/-- A concrete file build step for witnesses: the build always succeeds. -/
def fbuildOk : FileBuild := fun b => .ok { path := b.path, pattern := b.pattern }

/-! ## Helper lemmas -/

theorem lookup_insertAssoc_self (m : List (String × CreateAppender)) (k : String)
    (v : CreateAppender) : (insertAssoc m k v).lookup k = some v := by
  induction m with
  | nil => simp [insertAssoc, List.lookup]
  | cons hd tl ih =>
      obtain ⟨k0, v0⟩ := hd
      by_cases h : k0 = k
      · simp [insertAssoc, h, List.lookup]
      · have hne : (k == k0) = false := by simp [Ne.symm h]
        simp [insertAssoc, h, List.lookup, ih, hne]

theorem resolveAppenders_names (creator : Creator) (l : List (String × RawAppender))
    (apps : List ConfigAppender) (h : resolveAppenders creator l = .ok apps) :
    apps.map ConfigAppender.name = l.map Prod.fst := by
  induction l generalizing apps with
  | nil =>
      simp [resolveAppenders] at h
      simp [← h]
  | cons hd tl ih =>
      obtain ⟨name, a⟩ := hd
      rw [resolveAppenders] at h
      cases hc : creator.create_appender a.kind a.config with
      | error err => rw [hc] at h; cases h
      | ok app =>
          rw [hc] at h
          cases hr : resolveAppenders creator tl with
          | error err => rw [hr] at h; cases h
          | ok rest =>
              rw [hr] at h
              cases h
              simp [ConfigAppender.new, ih rest hr]

theorem resolveAppenders_first_error (creator : Creator)
    (pre post : List (String × RawAppender)) (name : String) (a : RawAppender) (err : String)
    (hpre : ∀ p ∈ pre, ∃ app, creator.create_appender p.2.kind p.2.config = .ok app)
    (ha : creator.create_appender a.kind a.config = .error err) :
    resolveAppenders creator (pre ++ (name, a) :: post) = .error err := by
  induction pre with
  | nil => simp [resolveAppenders, ha]
  | cons hd tl ih =>
      obtain ⟨n0, a0⟩ := hd
      obtain ⟨app, happ⟩ := hpre (n0, a0) (by simp)
      have htl := ih fun p hp => hpre p (by simp [hp])
      rw [List.cons_append, resolveAppenders, happ, htl]

/-! ## Claim theorems -/

/-- Claim C2: `Creator::create_appender(kind, config)` dispatches on the
registry: when no factory is registered under `kind` it fails with a message
containing that exact kind string; when a factory is registered it returns
exactly the factory's result, unchanged. -/
theorem create_appender_dispatch (c : Creator) (kind : String) (config : Table) :
    (c.appenders.lookup kind = none →
      ∃ pre post, c.create_appender kind config = .error (pre ++ kind ++ post)) ∧
    ∀ f, c.appenders.lookup kind = some f → c.create_appender kind config = f config := by
  constructor
  · intro h
    exact ⟨"No creator registered for appender kind \"", "\"",
      by rw [Creator.create_appender, h]⟩
  · intro f h
    rw [Creator.create_appender, h]

/-- Witness for C2: an empty registry rejects kind `syslog` with a message
containing `syslog`, and a registry holding a factory under `syslog` returns
exactly that factory's result. -/
theorem create_appender_dispatch_witness :
    (∃ pre post, Creator.new.create_appender "syslog" [] = .error (pre ++ "syslog" ++ post)) ∧
      (Creator.new.add_appender "syslog" fun _ => .ok (.other "s")).create_appender "syslog" []
        = .ok (.other "s") :=
  ⟨(create_appender_dispatch Creator.new "syslog" []).1 rfl,
   (create_appender_dispatch (Creator.new.add_appender "syslog" fun _ => .ok (.other "s"))
      "syslog" []).2 (fun _ => .ok (.other "s")) rfl⟩

/-- Claim C7: registering a second factory under an already-registered kind
replaces the first: after `add_appender kind f1` then `add_appender kind f2`,
`create_appender kind config` returns exactly `f2 config` — the last
registration for a kind wins. -/
theorem add_appender_last_wins (c : Creator) (kind : String) (f1 f2 : CreateAppender)
    (config : Table) :
    ((c.add_appender kind f1).add_appender kind f2).create_appender kind config = f2 config := by
  rw [Creator.create_appender, Creator.add_appender, lookup_insertAssoc_self]

/-- The File creator's `path` checks, shared by the claims about path
validation and about its precedence over pattern validation. -/
theorem file_path_checks (pnew : PatternNew) (fbuild : FileBuild) (t : Table) :
    (t.lookup "path" = none →
      FileAppenderCreator.create_appender pnew fbuild t = .error "`path` is required") ∧
    ∀ v, t.lookup "path" = some v → (∀ s, v ≠ .str s) →
      FileAppenderCreator.create_appender pnew fbuild t = .error "`path` must be a string" := by
  constructor
  · intro h
    rw [FileAppenderCreator.create_appender, h]
  · intro v h hv
    rw [FileAppenderCreator.create_appender, h]
    cases v with
    | str s => exact absurd rfl (hv s)
    | int n => rfl
    | float f => rfl
    | boolean b => rfl
    | datetime d => rfl
    | array xs => rfl
    | table tb => rfl

/-- Claim C3: the File creator requires a string `path`: with `path` absent it
fails with exactly "`path` is required", and with `path` present but not a
string it fails with exactly "`path` must be a string", whatever the other
keys of the table and whatever the external pattern compiler and build step
do. -/
theorem file_path_validation (pnew : PatternNew) (fbuild : FileBuild) (t : Table) :
    (t.lookup "path" = none →
      FileAppenderCreator.create_appender pnew fbuild t = .error "`path` is required") ∧
    ∀ v, t.lookup "path" = some v → (∀ s, v ≠ .str s) →
      FileAppenderCreator.create_appender pnew fbuild t = .error "`path` must be a string" :=
  file_path_checks pnew fbuild t

/-- Witness for C3: a table with only a `pattern` key yields the
path-required error, and a table whose `path` is an integer yields the
path-type error. -/
theorem file_path_validation_witness :
    FileAppenderCreator.create_appender pnewOk fbuildOk [("pattern", .str "p")]
        = .error "`path` is required" ∧
      FileAppenderCreator.create_appender pnewOk fbuildOk [("path", .int 3)]
        = .error "`path` must be a string" :=
  ⟨(file_path_validation pnewOk fbuildOk [("pattern", .str "p")]).1 rfl,
   (file_path_validation pnewOk fbuildOk [("path", .int 3)]).2 (.int 3) rfl
     fun s h => by cases h⟩

/-- Claim C10: in the File creator, `path` validation takes precedence over
`pattern` validation: even when the table holds a non-string `pattern`, an
absent `path` yields "`path` is required" and a non-string `path` yields
"`path` must be a string" — the pattern error is never reported while the
path is invalid. -/
theorem file_path_precedes_pattern (pnew : PatternNew) (fbuild : FileBuild) (t : Table)
    (w : Value) (_hw : t.lookup "pattern" = some w) (_hws : ∀ s, w ≠ .str s) :
    (t.lookup "path" = none →
      FileAppenderCreator.create_appender pnew fbuild t = .error "`path` is required") ∧
    ∀ v, t.lookup "path" = some v → (∀ s, v ≠ .str s) →
      FileAppenderCreator.create_appender pnew fbuild t = .error "`path` must be a string" :=
  file_path_checks pnew fbuild t

/-- Witness for C10: with `pattern` bound to the integer 1, a missing `path`
still reports the path-required error and a boolean `path` still reports the
path-type error, not the pattern error. -/
theorem file_path_precedes_pattern_witness :
    FileAppenderCreator.create_appender pnewOk fbuildOk [("pattern", .int 1)]
        = .error "`path` is required" ∧
      FileAppenderCreator.create_appender pnewOk fbuildOk
          [("path", .boolean true), ("pattern", .int 1)]
        = .error "`path` must be a string" :=
  ⟨(file_path_precedes_pattern pnewOk fbuildOk [("pattern", .int 1)] (.int 1) rfl
      fun s h => by cases h).1 rfl,
   (file_path_precedes_pattern pnewOk fbuildOk [("path", .boolean true), ("pattern", .int 1)]
      (.int 1) rfl fun s h => by cases h).2 (.boolean true) rfl fun s h => by cases h⟩

/-- Counterexample to claim C4 as stated: on the table `{pattern = 123}` the
File creator does not return the pattern error — its `path` check runs first
and it returns "`path` is required" — while the Console creator does return
"`pattern` must be a string". -/
theorem file_console_pattern_claim_counterexample :
    FileAppenderCreator.create_appender pnewOk fbuildOk [("pattern", .int 123)]
        = .error "`path` is required" ∧
      FileAppenderCreator.create_appender pnewOk fbuildOk [("pattern", .int 123)]
        ≠ .error "`pattern` must be a string" ∧
      ConsoleAppenderCreator.create_appender pnewOk [("pattern", .int 123)]
        = .error "`pattern` must be a string" := by
  refine ⟨rfl, fun h => ?_, rfl⟩
  exact absurd (Except.error.inj h) (by decide)

/-- Claim C4 (amended): once the File creator's `path` check has passed, the
two creators handle `pattern` identically — a non-string `pattern` yields
exactly "`pattern` must be a string" from the File creator whenever `path` is
a string, and from the Console creator always; with `pattern` absent the File
creator's outcome is exactly the build step's outcome with no layout set and
the Console creator succeeds with no layout; the Console creator has no
required keys and succeeds whenever pattern handling does not fail. -/
theorem file_console_pattern_handling (pnew : PatternNew) (fbuild : FileBuild) (t : Table) :
    (∀ w, t.lookup "pattern" = some w → (∀ s, w ≠ .str s) →
      (∀ path, t.lookup "path" = some (.str path) →
        FileAppenderCreator.create_appender pnew fbuild t
          = .error "`pattern` must be a string") ∧
      ConsoleAppenderCreator.create_appender pnew t = .error "`pattern` must be a string") ∧
    (t.lookup "pattern" = none →
      (∀ path, t.lookup "path" = some (.str path) →
        FileAppenderCreator.create_appender pnew fbuild t
          = match fbuild (FileAppender.builder path) with
            | .ok a => .ok (.file a)
            | .error e => .error e) ∧
      ConsoleAppenderCreator.create_appender pnew t = .ok (.console { pattern := none })) ∧
    ∀ s layout, t.lookup "pattern" = some (.str s) → pnew s = .ok layout →
      ConsoleAppenderCreator.create_appender pnew t
        = .ok (.console { pattern := some layout }) := by
  refine ⟨fun w hw hws => ⟨fun path hp => ?_, ?_⟩, fun hn => ⟨fun path hp => ?_, ?_⟩,
    fun s layout hs hl => ?_⟩
  · rw [FileAppenderCreator.create_appender, hp, hw]
    cases w with
    | str s => exact absurd rfl (hws s)
    | int n => rfl
    | float f => rfl
    | boolean b => rfl
    | datetime d => rfl
    | array xs => rfl
    | table tb => rfl
  · rw [ConsoleAppenderCreator.create_appender, hw]
    cases w with
    | str s => exact absurd rfl (hws s)
    | int n => rfl
    | float f => rfl
    | boolean b => rfl
    | datetime d => rfl
    | array xs => rfl
    | table tb => rfl
  · rw [FileAppenderCreator.create_appender, hp, hn]
  · simp [ConsoleAppenderCreator.create_appender, hn, ConsoleAppender.builder,
      ConsoleAppenderBuilder.build]
  · simp [ConsoleAppenderCreator.create_appender, hs, hl, ConsoleAppender.builder,
      ConsoleAppenderBuilder.build, ConsoleAppenderBuilder.pattern_]

/-- Witness for C4 (amended): with `path = "log"` and `pattern = 123` the
File creator reports the pattern-type error, as does the Console creator;
with `pattern` absent the File creator returns the successful build with no
layout and the Console creator succeeds with no layout; with a string pattern
the Console creator succeeds with the compiled layout. -/
theorem file_console_pattern_handling_witness :
    FileAppenderCreator.create_appender pnewOk fbuildOk
        [("path", .str "log"), ("pattern", .int 123)]
        = .error "`pattern` must be a string" ∧
      ConsoleAppenderCreator.create_appender pnewOk [("pattern", .int 123)]
        = .error "`pattern` must be a string" ∧
      FileAppenderCreator.create_appender pnewOk fbuildOk [("path", .str "log")]
        = .ok (.file { path := "log", pattern := none }) ∧
      ConsoleAppenderCreator.create_appender pnewOk []
        = .ok (.console { pattern := none }) ∧
      ConsoleAppenderCreator.create_appender pnewOk [("pattern", .str "%d %m")]
        = .ok (.console { pattern := some { pattern := "%d %m" } }) :=
  ⟨((file_console_pattern_handling pnewOk fbuildOk
        [("path", .str "log"), ("pattern", .int 123)]).1 (.int 123) rfl
      fun s h => by cases h).1 "log" rfl,
   ((file_console_pattern_handling pnewOk fbuildOk [("pattern", .int 123)]).1 (.int 123) rfl
      fun s h => by cases h).2,
   ((file_console_pattern_handling pnewOk fbuildOk [("path", .str "log")]).2.1 rfl).1 "log" rfl,
   ((file_console_pattern_handling pnewOk fbuildOk []).2.1 rfl).2,
   (file_console_pattern_handling pnewOk fbuildOk [("pattern", .str "%d %m")]).2.2
     "%d %m" { pattern := "%d %m" } rfl rfl⟩

/-- Claim C5: the Translator's logger assembly defaults `additive` to `true`
when the raw flag is absent and the appender-reference list to `[]` when the
raw list is absent, for every raw logger entry. -/
theorem logger_defaults (l : RawLogger) :
    (l.additive = none → (mkLogger l).additive = true) ∧
    (l.appenders = none → (mkLogger l).appenders = []) := by
  constructor
  · intro h
    simp [mkLogger, Logger.new, h]
  · intro h
    simp [mkLogger, Logger.new, h]

/-- Witness for C5: a raw logger entry with both optional fields absent is
assembled with `additive = true` and no appender references. -/
theorem logger_defaults_witness :
    (mkLogger { name := "x", level := .warn, appenders := none, additive := none }).additive
        = true ∧
      (mkLogger { name := "x", level := .warn, appenders := none, additive := none }).appenders
        = [] :=
  ⟨(logger_defaults { name := "x", level := .warn, appenders := none, additive := none }).1 rfl,
   (logger_defaults { name := "x", level := .warn, appenders := none, additive := none }).2 rfl⟩

/-- Claim C6: with the raw root section entirely absent the Translator
assembles the Root with level Debug and no appender references; with a raw
root present but its `appenders` list absent, the assembled Root keeps the
raw level and has an empty appender set. -/
theorem root_defaults :
    mkRoot none = { level := .debug, appenders := [] } ∧
    ∀ rr : RawRoot, rr.appenders = none →
      mkRoot (some rr) = { level := rr.level, appenders := [] } := by
  constructor
  · rfl
  · intro rr h
    simp [mkRoot, Root.new, h]

/-- Witness for C6: an absent raw root yields the Debug-level empty Root, and
a raw root at level Info with no appender list keeps level Info with an empty
appender set. -/
theorem root_defaults_witness :
    mkRoot none = { level := .debug, appenders := [] } ∧
      mkRoot (some { level := .info, appenders := none })
        = { level := .info, appenders := [] } :=
  ⟨root_defaults.1, root_defaults.2 { level := .info, appenders := none } rfl⟩

/-- A concrete console fragment with an empty config table, for witnesses. -/
def consoleFragment : RawAppender := { kind := "console", config := [] }

/-- A concrete fragment of an unregistered kind, for witnesses. -/
def unknownFragment : RawAppender := { kind := "nope", config := [] }

/-- A raw structure whose second appender fragment has an unregistered kind,
for the first-failure witness. -/
def rawFirstFailure : RawConfig :=
  { refresh_rate := none, root := none,
    appenders := [("a", consoleFragment), ("b", unknownFragment), ("c", unknownFragment)],
    loggers := [] }

/-- Claim C1: during appender resolution, `parse` processes the fragments in
order; at the first fragment whose creation fails it stops and returns a
single Creation error wrapping exactly that failure, for every choice of the
remaining fragments — no aggregation across later failures. -/
theorem parse_creation_first_failure (rawParse : RawParse) (cfgStr : String)
    (creator : Creator) (raw : RawConfig) (pre post : List (String × RawAppender))
    (name : String) (a : RawAppender) (err : String)
    (hraw : rawParse cfgStr = .ok raw)
    (happ : raw.appenders = pre ++ (name, a) :: post)
    (hpre : ∀ p ∈ pre, ∃ app, creator.create_appender p.2.kind p.2.config = .ok app)
    (ha : creator.create_appender a.kind a.config = .error err) :
    parse rawParse cfgStr creator = .error (.creation err) := by
  have hres := resolveAppenders_first_error creator pre post name a err hpre ha
  rw [← happ] at hres
  simp [parse, hraw, hres]

/-- Witness for C1: with a good console fragment, then an unregistered kind,
then another unregistered kind, `parse` returns the Creation error of the
second fragment alone. -/
theorem parse_creation_first_failure_witness :
    parse (fun _ => .ok rawFirstFailure) "" (Creator.default pnewOk fbuildOk)
      = .error (.creation "No creator registered for appender kind \"nope\"") :=
  parse_creation_first_failure (fun _ => .ok rawFirstFailure) ""
    (Creator.default pnewOk fbuildOk) rawFirstFailure
    [("a", consoleFragment)] [("c", unknownFragment)] "b" unknownFragment
    "No creator registered for appender kind \"nope\"" rfl rfl
    (fun p hp => by
      rw [List.mem_singleton] at hp
      subst hp
      exact ⟨.console { pattern := none }, rfl⟩)
    rfl

/-- Extracting the appender list from a successful run of the modelled config
validator: on success the validator returns the triple unchanged. -/
theorem Config.new_ok_appenders (apps : List ConfigAppender) (root : Root)
    (loggers : List Logger) (cfg : Config) (h : Config.new apps root loggers = .ok cfg) :
    cfg.appenders = apps := by
  simp only [Config.new] at h
  split at h
  · simp at h
  · split at h
    · simp at h
    · split at h
      · simp at h
      · cases h
        rfl

/-- Claim C8: on every successful `parse` of a document with N appender
fragments of registered kinds, the translated config holds exactly N
constructed appenders, under the names declared in the document and in the
same order — none dropped, none duplicated. -/
theorem parse_preserves_appender_names (rawParse : RawParse) (cfgStr : String)
    (creator : Creator) (raw : RawConfig) (tc : TomlConfig)
    (hraw : rawParse cfgStr = .ok raw)
    (hok : parse rawParse cfgStr creator = .ok tc) :
    tc.config.appenders.map ConfigAppender.name = raw.appenders.map Prod.fst := by
  simp only [parse, hraw] at hok
  cases hres : resolveAppenders creator raw.appenders with
  | error err => rw [hres] at hok; simp at hok
  | ok apps =>
      rw [hres] at hok
      simp only [] at hok
      cases hcfg : Config.new apps (mkRoot raw.root) (raw.loggers.map mkLogger) with
      | error e => rw [hcfg] at hok; simp at hok
      | ok cfg =>
          rw [hcfg] at hok
          simp only [Except.ok.injEq] at hok
          rw [← hok]
          rw [Config.new_ok_appenders apps (mkRoot raw.root) (raw.loggers.map mkLogger) cfg hcfg]
          exact resolveAppenders_names creator raw.appenders apps hres

/-- A raw structure with two appender fragments of the two built-in kinds,
for the name-preservation witness. -/
def rawTwoAppenders : RawConfig :=
  { refresh_rate := none, root := none,
    appenders := [("a", consoleFragment),
                  ("b", { kind := "file", config := [("path", .str "log")] })],
    loggers := [] }

/-- The translated config produced for `rawTwoAppenders` by the default
registry with the always-succeeding collaborators. -/
def tcTwoAppenders : TomlConfig :=
  { refresh_rate := none,
    config :=
      { appenders := [ConfigAppender.new "a" (.console { pattern := none }),
                      ConfigAppender.new "b" (.file { path := "log", pattern := none })],
        root := { level := .debug, appenders := [] },
        loggers := [] } }

/-- Witness for C8: the two-fragment document translates to a config whose
appender names are exactly the declared names `a` and `b`, in order. -/
theorem parse_preserves_appender_names_witness :
    tcTwoAppenders.config.appenders.map ConfigAppender.name
      = rawTwoAppenders.appenders.map Prod.fst :=
  parse_preserves_appender_names (fun _ => .ok rawTwoAppenders) ""
    (Creator.default pnewOk fbuildOk) rawTwoAppenders tcTwoAppenders rfl rfl

/-- Claim C9: when the raw extractor reports problems, `parse` returns a
Parse error carrying the full list of messages, for every registry — no
appender creation or assembly happens and no partial result accompanies the
error; and every `parse` call returns either a translated config or exactly
one of the three discriminated errors. -/
theorem parse_extraction_error (rawParse : RawParse) (cfgStr : String) (errs : List String)
    (h : rawParse cfgStr = .error errs) :
    (∀ creator : Creator, parse rawParse cfgStr creator = .error (.parse errs)) ∧
    ∀ (rp : RawParse) (s : String) (creator : Creator),
      (∃ tc, parse rp s creator = .ok tc) ∨
        (∃ msgs, parse rp s creator = .error (.parse msgs)) ∨
        (∃ e, parse rp s creator = .error (.creation e)) ∨
        ∃ e, parse rp s creator = .error (.config e) := by
  constructor
  · intro creator
    simp [parse, h]
  · intro rp s creator
    cases hr : parse rp s creator with
    | ok tc => exact .inl ⟨tc, rfl⟩
    | error e =>
        cases e with
        | parse msgs => exact .inr (.inl ⟨msgs, rfl⟩)
        | creation err => exact .inr (.inr (.inl ⟨err, rfl⟩))
        | config err => exact .inr (.inr (.inr ⟨err, rfl⟩))

/-- Witness for C9: an extractor reporting two messages makes `parse` return
the Parse error carrying both messages, not just the first. -/
theorem parse_extraction_error_witness :
    parse (fun _ => .error ["unexpected token", "missing table"]) "x" Creator.new
      = .error (.parse ["unexpected token", "missing table"]) :=
  (parse_extraction_error (fun _ => .error ["unexpected token", "missing table"]) "x"
      ["unexpected token", "missing table"] rfl).1 Creator.new

end Log4rs
